import Mathlib

/-!
Verification of `src/Libraries/PermissionsAndroid/PermissionsAndroid.js`.

The module is a facade over two external collaborators: a native permissions
provider (`NativeModules.PermissionsAndroid`, bound to `Permissions`) and a
dialog provider (`NativeModules.DialogManagerAndroid`).  We embed it shallowly:
the collaborators' behaviour is an explicit environment of response functions,
promise resolution/rejection is `Except`, and each facade operation returns,
besides its result, the ordered list of collaborator calls it issued.  The
facade object itself (whose only state is the `PERMISSIONS` table written once
in the constructor) is threaded through each operation so that frame
properties about the table are expressible.
-/

/-- The `Rationale` flow type of the source: two required text fields. -/
structure Rationale where
  title : String
  message : String
deriving DecidableEq, Repr

/-- A JavaScript `Error` value, as constructed by `new Error(message)` and as
carried by a rejected promise. -/
inductive JSError where
  | error (message : String)
deriving DecidableEq, Repr

/-- One call issued by the facade to a collaborator, in program order.
`showAlertCall` records the `title` and `message` fields of the rationale
object handed to `DialogManagerAndroid.showAlert`. -/
inductive Event where
  | checkPermissionCall (permission : String)
  | shouldShowRationaleCall (permission : String)
  | showAlertCall (title message : String)
  | requestPermissionCall (permission : String)
deriving DecidableEq, Repr

/-- `true` exactly on the provider's underlying permission-request call. -/
def Event.isRequestCall : Event → Bool
  | Event.requestPermissionCall _ => true
  | _ => false

/-- `true` exactly on the dialog provider's `showAlert` call. -/
def Event.isShowAlertCall : Event → Bool
  | Event.showAlertCall _ _ => true
  | _ => false

/-- Behaviour of the external collaborators during one facade invocation:
the three promise-returning provider operations (each resolving to a boolean
or rejecting with an error), and the dialog provider, for which
`showAlertSucceeds r = true` means the affirmative (third) callback of
`showAlert` fires and `false` means the negative (second) callback fires. -/
structure Env where
  checkPermission : String → Except JSError Bool
  shouldShowRequestPermissionRationale : String → Except JSError Bool
  requestPermission : String → Except JSError Bool
  showAlertSucceeds : Rationale → Bool

/-- The facade object: its only instance state is the `PERMISSIONS` table,
assigned once in the constructor. -/
structure PermissionsAndroid where
  PERMISSIONS : List (String × String)
deriving DecidableEq, Repr

/-- Result of one facade operation: the facade object after the call, the
settled promise, and the ordered collaborator calls issued. -/
structure Outcome where
  selfAfter : PermissionsAndroid
  result : Except JSError Bool
  trace : List Event
deriving Repr

/-- The constructor body: the full table literal of the source, in source
order. -/
def mkPermissionsAndroid : PermissionsAndroid :=
  ⟨[("READ_CALENDAR", "android.permission.READ_CALENDAR"),
    ("WRITE_CALENDAR", "android.permission.WRITE_CALENDAR"),
    ("CAMERA", "android.permission.CAMERA"),
    ("READ_CONTACTS", "android.permission.READ_CONTACTS"),
    ("WRITE_CONTACTS", "android.permission.WRITE_CONTACTS"),
    ("GET_ACCOUNTS", "android.permission.GET_ACCOUNTS"),
    ("ACCESS_FINE_LOCATION", "android.permission.ACCESS_FINE_LOCATION"),
    ("ACCESS_COARSE_LOCATION", "android.permission.ACCESS_COARSE_LOCATION"),
    ("RECORD_AUDIO", "android.permission.RECORD_AUDIO"),
    ("READ_PHONE_STATE", "android.permission.READ_PHONE_STATE"),
    ("CALL_PHONE", "android.permission.CALL_PHONE"),
    ("READ_CALL_LOG", "android.permission.READ_CALL_LOG"),
    ("WRITE_CALL_LOG", "android.permission.WRITE_CALL_LOG"),
    ("ADD_VOICEMAIL", "com.android.voicemail.permission.ADD_VOICEMAIL"),
    ("USE_SIP", "android.permission.USE_SIP"),
    ("PROCESS_OUTGOING_CALLS", "android.permission.PROCESS_OUTGOING_CALLS"),
    ("BODY_SENSORS", "android.permission.BODY_SENSORS"),
    ("SEND_SMS", "android.permission.SEND_SMS"),
    ("RECEIVE_SMS", "android.permission.RECEIVE_SMS"),
    ("READ_SMS", "android.permission.READ_SMS"),
    ("RECEIVE_WAP_PUSH", "android.permission.RECEIVE_WAP_PUSH"),
    ("RECEIVE_MMS", "android.permission.RECEIVE_MMS"),
    ("READ_EXTERNAL_STORAGE", "android.permission.READ_EXTERNAL_STORAGE"),
    ("WRITE_EXTERNAL_STORAGE", "android.permission.WRITE_EXTERNAL_STORAGE")]⟩

/-- `checkPermission(permission)`: `return Permissions.checkPermission(permission)` —
a single provider call whose promise is returned unchanged. -/
def PermissionsAndroid.checkPermission (self : PermissionsAndroid) (env : Env)
    (permission : String) : Outcome :=
  ⟨self, env.checkPermission permission, [Event.checkPermissionCall permission]⟩

/-- `requestPermission(permission, rationale?)`, translated clause by clause:
if a rationale is supplied, `await Permissions.shouldShowRequestPermissionRationale(permission)`
(a rejection there rejects the whole call); when it resolves `true`, hand the
rationale to `DialogManagerAndroid.showAlert` — the negative callback rejects
with `new Error('Error showing rationale')`, the affirmative callback resolves
with `Permissions.requestPermission(permission)`; when it resolves `false`,
fall through to `return Permissions.requestPermission(permission)`, the same
line taken when no rationale is supplied. -/
def PermissionsAndroid.requestPermission (self : PermissionsAndroid) (env : Env)
    (permission : String) (rationale : Option Rationale) : Outcome :=
  match rationale with
  | some r =>
    match env.shouldShowRequestPermissionRationale permission with
    | Except.error e =>
      ⟨self, Except.error e, [Event.shouldShowRationaleCall permission]⟩
    | Except.ok shouldShowRationale =>
      if shouldShowRationale then
        if env.showAlertSucceeds r then
          ⟨self, env.requestPermission permission,
            [Event.shouldShowRationaleCall permission,
             Event.showAlertCall r.title r.message,
             Event.requestPermissionCall permission]⟩
        else
          ⟨self, Except.error (JSError.error "Error showing rationale"),
            [Event.shouldShowRationaleCall permission,
             Event.showAlertCall r.title r.message]⟩
      else
        ⟨self, env.requestPermission permission,
          [Event.shouldShowRationaleCall permission,
           Event.requestPermissionCall permission]⟩
  | none =>
    ⟨self, env.requestPermission permission, [Event.requestPermissionCall permission]⟩

/-- A concrete environment for witnesses: every provider call resolves `true`
and the dialog succeeds. -/
def envAllTrue : Env :=
  ⟨fun _ => Except.ok true, fun _ => Except.ok true, fun _ => Except.ok true,
   fun _ => true⟩

/-- A concrete environment for witnesses: the rationale check resolves `true`
but the dialog's negative callback fires. -/
def envDialogFails : Env :=
  ⟨fun _ => Except.ok true, fun _ => Except.ok true, fun _ => Except.ok true,
   fun _ => false⟩

/-- A concrete environment for witnesses: the rationale check resolves `false`. -/
def envNoRationaleNeeded : Env :=
  ⟨fun _ => Except.ok true, fun _ => Except.ok false, fun _ => Except.ok false,
   fun _ => true⟩

/-- A concrete environment for witnesses: every provider call rejects with the
same error value. -/
def envAllReject : Env :=
  ⟨fun _ => Except.error (JSError.error "boom"),
   fun _ => Except.error (JSError.error "boom"),
   fun _ => Except.error (JSError.error "boom"),
   fun _ => true⟩

/-- A sample rationale used by witnesses. -/
def sampleRationale : Rationale := ⟨"T", "M"⟩

example :
    (mkPermissionsAndroid.requestPermission envAllTrue "android.permission.CAMERA"
      (some sampleRationale)).result = Except.ok true := by rfl

example :
    (mkPermissionsAndroid.requestPermission envDialogFails "p"
      (some sampleRationale)).result
      = Except.error (JSError.error "Error showing rationale") := by rfl

/-- C1: when the provider reports that a rationale should be shown and the
dialog's affirmative callback fires, the facade issues exactly the three
calls `shouldShowRequestPermissionRationale p`, `showAlert` with `r`'s title
and message, `requestPermission p`, in that order (so the dialog and the
underlying request each happen exactly once, dialog first), and resolves with
exactly the provider's `requestPermission p` result. -/
theorem requestPermission_rationale_dialog_success (env : Env) (p : String)
    (r : Rationale)
    (hs : env.shouldShowRequestPermissionRationale p = Except.ok true)
    (hd : env.showAlertSucceeds r = true) :
    (mkPermissionsAndroid.requestPermission env p (some r)).result
        = env.requestPermission p ∧
    (mkPermissionsAndroid.requestPermission env p (some r)).trace
        = [Event.shouldShowRationaleCall p,
           Event.showAlertCall r.title r.message,
           Event.requestPermissionCall p] := by
  simp [PermissionsAndroid.requestPermission, hs, hd]

/-- Witness for C1 at a concrete environment and permission. -/
theorem requestPermission_rationale_dialog_success_witness :
    envAllTrue.shouldShowRequestPermissionRationale "android.permission.CAMERA"
        = Except.ok true ∧
    envAllTrue.showAlertSucceeds sampleRationale = true ∧
    (mkPermissionsAndroid.requestPermission envAllTrue "android.permission.CAMERA"
        (some sampleRationale)).result
      = envAllTrue.requestPermission "android.permission.CAMERA" :=
  ⟨rfl, rfl,
    (requestPermission_rationale_dialog_success envAllTrue
      "android.permission.CAMERA" sampleRationale rfl rfl).1⟩

/-- C2: when the provider reports that a rationale should be shown and the
dialog's negative callback fires, the facade rejects with the presentation
error `Error('Error showing rationale')` — a rejection, hence distinguishable
from a resolved `false` — the issued calls are exactly the rationale check
followed by the dialog, and the provider's `requestPermission` is never
invoked. -/
theorem requestPermission_dialog_failure (env : Env) (p : String) (r : Rationale)
    (hs : env.shouldShowRequestPermissionRationale p = Except.ok true)
    (hd : env.showAlertSucceeds r = false) :
    (mkPermissionsAndroid.requestPermission env p (some r)).result
        = Except.error (JSError.error "Error showing rationale") ∧
    (mkPermissionsAndroid.requestPermission env p (some r)).result
        ≠ Except.ok false ∧
    (mkPermissionsAndroid.requestPermission env p (some r)).trace
        = [Event.shouldShowRationaleCall p, Event.showAlertCall r.title r.message] ∧
    ∀ q, Event.requestPermissionCall q
        ∉ (mkPermissionsAndroid.requestPermission env p (some r)).trace := by
  simp [PermissionsAndroid.requestPermission, hs, hd]

/-- Witness for C2 at a concrete environment and permission. -/
theorem requestPermission_dialog_failure_witness :
    envDialogFails.shouldShowRequestPermissionRationale "p" = Except.ok true ∧
    envDialogFails.showAlertSucceeds sampleRationale = false ∧
    (mkPermissionsAndroid.requestPermission envDialogFails "p"
        (some sampleRationale)).result
      = Except.error (JSError.error "Error showing rationale") :=
  ⟨rfl, rfl,
    (requestPermission_dialog_failure envDialogFails "p" sampleRationale rfl rfl).1⟩

/-- C3: with no rationale argument, the facade resolves (or rejects) with
exactly the provider's `requestPermission p` promise, and the only
collaborator call issued is that one: neither the rationale check nor the
dialog provider is invoked. -/
theorem requestPermission_no_rationale (env : Env) (p : String) :
    (mkPermissionsAndroid.requestPermission env p none).result
        = env.requestPermission p ∧
    (mkPermissionsAndroid.requestPermission env p none).trace
        = [Event.requestPermissionCall p] :=
  ⟨rfl, rfl⟩

/-- C4: when the provider reports that no rationale is needed, the facade
resolves/rejects exactly as the no-rationale call does (both return the
provider's `requestPermission p` promise), the dialog provider is never
invoked, and the issued calls are exactly the rationale check followed by the
underlying request. -/
theorem requestPermission_rationale_not_needed (env : Env) (p : String)
    (r : Rationale)
    (hs : env.shouldShowRequestPermissionRationale p = Except.ok false) :
    (mkPermissionsAndroid.requestPermission env p (some r)).result
        = (mkPermissionsAndroid.requestPermission env p none).result ∧
    (mkPermissionsAndroid.requestPermission env p (some r)).trace
        = [Event.shouldShowRationaleCall p, Event.requestPermissionCall p] ∧
    ∀ t m, Event.showAlertCall t m
        ∉ (mkPermissionsAndroid.requestPermission env p (some r)).trace := by
  simp [PermissionsAndroid.requestPermission, hs]

/-- Witness for C4 at a concrete environment and permission. -/
theorem requestPermission_rationale_not_needed_witness :
    envNoRationaleNeeded.shouldShowRequestPermissionRationale "p"
        = Except.ok false ∧
    (mkPermissionsAndroid.requestPermission envNoRationaleNeeded "p"
        (some sampleRationale)).result
      = (mkPermissionsAndroid.requestPermission envNoRationaleNeeded "p" none).result :=
  ⟨rfl,
    (requestPermission_rationale_not_needed envNoRationaleNeeded "p"
      sampleRationale rfl).1⟩

/-- C5: `checkPermission p` returns exactly the provider's
`checkPermission p` promise — the identifier is forwarded verbatim, the
resolved boolean or the rejection comes back unchanged — and the only
collaborator call issued is that single provider call. -/
theorem checkPermission_forwards (env : Env) (p : String) :
    (mkPermissionsAndroid.checkPermission env p).result
        = env.checkPermission p ∧
    (mkPermissionsAndroid.checkPermission env p).trace
        = [Event.checkPermissionCall p] :=
  ⟨rfl, rfl⟩

/-- C6: on every invocation of `requestPermission` — any environment,
permission and optional rationale — at most one underlying
permission-request call appears in the trace, and every call other than the
last one in the trace is not the underlying request: the rationale check and
the dialog, whenever they occur, complete strictly before the underlying
request is issued. -/
theorem requestPermission_request_last_at_most_once (env : Env) (p : String)
    (ro : Option Rationale) :
    (mkPermissionsAndroid.requestPermission env p ro).trace.countP
        (fun e => e.isRequestCall) ≤ 1 ∧
    ∀ e ∈ (mkPermissionsAndroid.requestPermission env p ro).trace.dropLast,
      e.isRequestCall = false := by
  rcases ro with _ | r
  · simp [PermissionsAndroid.requestPermission, Event.isRequestCall]
  · cases hss : env.shouldShowRequestPermissionRationale p with
    | error e =>
      simp [PermissionsAndroid.requestPermission, hss, Event.isRequestCall]
    | ok b =>
      cases b
      · simp [PermissionsAndroid.requestPermission, hss, Event.isRequestCall]
      · cases hd : env.showAlertSucceeds r
        · simp [PermissionsAndroid.requestPermission, hss, hd, Event.isRequestCall]
        · simp [PermissionsAndroid.requestPermission, hss, hd, Event.isRequestCall]

/-- C7: a rejection from any provider operation is propagated to the caller
as the same error value — no translation, wrapping, swallowing or retry —
and once a provider call has rejected, no further collaborator call is made
in that invocation: a `checkPermission` rejection is the facade's result; a
rationale-check rejection is the facade's result and the trace stops at that
single call; and whenever the underlying request was issued and rejects, its
error is the facade's result (the request is always the last call issued). -/
theorem provider_rejections_propagate (env : Env) (p : String) (r : Rationale)
    (e : JSError) :
    (env.checkPermission p = Except.error e →
      (mkPermissionsAndroid.checkPermission env p).result = Except.error e) ∧
    (env.shouldShowRequestPermissionRationale p = Except.error e →
      (mkPermissionsAndroid.requestPermission env p (some r)).result
          = Except.error e ∧
      (mkPermissionsAndroid.requestPermission env p (some r)).trace
          = [Event.shouldShowRationaleCall p]) ∧
    (env.requestPermission p = Except.error e →
      ∀ ro : Option Rationale,
        Event.requestPermissionCall p
            ∈ (mkPermissionsAndroid.requestPermission env p ro).trace →
        (mkPermissionsAndroid.requestPermission env p ro).result
            = Except.error e) := by
  refine ⟨?_, ?_, ?_⟩
  · intro h
    simp [PermissionsAndroid.checkPermission, h]
  · intro h
    simp [PermissionsAndroid.requestPermission, h]
  · intro h ro hmem
    rcases ro with _ | r2
    · simp [PermissionsAndroid.requestPermission, h]
    · cases hss : env.shouldShowRequestPermissionRationale p with
      | error e2 =>
        simp [PermissionsAndroid.requestPermission, hss] at hmem
      | ok b =>
        cases b
        · simp [PermissionsAndroid.requestPermission, hss, h]
        · cases hd : env.showAlertSucceeds r2
          · simp [PermissionsAndroid.requestPermission, hss, hd] at hmem
          · simp [PermissionsAndroid.requestPermission, hss, hd, h]

/-- Witness for C7 at a concrete environment whose provider calls all reject. -/
theorem provider_rejections_propagate_witness :
    envAllReject.shouldShowRequestPermissionRationale "p"
        = Except.error (JSError.error "boom") ∧
    (mkPermissionsAndroid.requestPermission envAllReject "p"
        (some sampleRationale)).result
      = Except.error (JSError.error "boom") :=
  ⟨rfl,
    ((provider_rejections_propagate envAllReject "p" sampleRationale
      (JSError.error "boom")).2.1 rfl).1⟩

/-- C8: the permission table built by the constructor maps `CAMERA` to
`"android.permission.CAMERA"`; every key present in the table is mapped to
some string identifier; and neither facade operation ever changes the table,
so repeated reads across any sequence of operations return the same values.
(The table is a single literal assigned in the constructor, so it is fully
populated before any operation can run.) -/
theorem PERMISSIONS_table_stable :
    mkPermissionsAndroid.PERMISSIONS.lookup "CAMERA"
        = some "android.permission.CAMERA" ∧
    (∀ k, k ∈ mkPermissionsAndroid.PERMISSIONS.map Prod.fst →
      (mkPermissionsAndroid.PERMISSIONS.lookup k).isSome = true) ∧
    (∀ env p ro,
      (mkPermissionsAndroid.requestPermission env p ro).selfAfter.PERMISSIONS
        = mkPermissionsAndroid.PERMISSIONS) ∧
    (∀ env p,
      (mkPermissionsAndroid.checkPermission env p).selfAfter.PERMISSIONS
        = mkPermissionsAndroid.PERMISSIONS) := by
  refine ⟨by decide, ?_, ?_, ?_⟩
  · intro k hk
    have hall : (mkPermissionsAndroid.PERMISSIONS.map Prod.fst).all
        (fun k => (mkPermissionsAndroid.PERMISSIONS.lookup k).isSome) = true := by
      decide
    exact List.all_eq_true.mp hall k hk
  · intro env p ro
    rcases ro with _ | r
    · rfl
    · cases hss : env.shouldShowRequestPermissionRationale p with
      | error e => simp [PermissionsAndroid.requestPermission, hss]
      | ok b =>
        cases b
        · simp [PermissionsAndroid.requestPermission, hss]
        · cases hd : env.showAlertSucceeds r
          · simp [PermissionsAndroid.requestPermission, hss, hd]
          · simp [PermissionsAndroid.requestPermission, hss, hd]
  · intro env p
    rfl

/-- Witness for C8 at the concrete key `CAMERA`. -/
theorem PERMISSIONS_table_stable_witness :
    "CAMERA" ∈ mkPermissionsAndroid.PERMISSIONS.map Prod.fst ∧
    (mkPermissionsAndroid.PERMISSIONS.lookup "CAMERA").isSome = true :=
  ⟨by decide, PERMISSIONS_table_stable.2.1 "CAMERA" (by decide)⟩

/-- C9: every collaborator call issued by `requestPermission(p, some r)`
carries the caller's arguments verbatim — each rationale-check and each
underlying-request call carries exactly `p`, and each dialog call carries
exactly `r`'s title and message — and the outcome is a function of `p`, `r`
and the collaborators' responses alone: two environments whose rationale
check, underlying request and dialog behaviour agree yield identical
outcomes. -/
theorem requestPermission_arguments_verbatim (env : Env) (p : String)
    (r : Rationale) :
    (∀ q, Event.shouldShowRationaleCall q
        ∈ (mkPermissionsAndroid.requestPermission env p (some r)).trace → q = p) ∧
    (∀ q, Event.requestPermissionCall q
        ∈ (mkPermissionsAndroid.requestPermission env p (some r)).trace → q = p) ∧
    (∀ a b, Event.showAlertCall a b
        ∈ (mkPermissionsAndroid.requestPermission env p (some r)).trace →
      a = r.title ∧ b = r.message) ∧
    (∀ env2 : Env,
      env.shouldShowRequestPermissionRationale
          = env2.shouldShowRequestPermissionRationale →
      env.requestPermission = env2.requestPermission →
      env.showAlertSucceeds = env2.showAlertSucceeds →
      mkPermissionsAndroid.requestPermission env p (some r)
          = mkPermissionsAndroid.requestPermission env2 p (some r)) := by
  refine ⟨?_, ?_, ?_, ?_⟩
  · intro q hq
    cases hss : env.shouldShowRequestPermissionRationale p with
    | error e => simp [PermissionsAndroid.requestPermission, hss] at hq; exact hq
    | ok b =>
      cases b
      · simp [PermissionsAndroid.requestPermission, hss] at hq; exact hq
      · cases hd : env.showAlertSucceeds r
        · simp [PermissionsAndroid.requestPermission, hss, hd] at hq; exact hq
        · simp [PermissionsAndroid.requestPermission, hss, hd] at hq; exact hq
  · intro q hq
    cases hss : env.shouldShowRequestPermissionRationale p with
    | error e => simp [PermissionsAndroid.requestPermission, hss] at hq
    | ok b =>
      cases b
      · simp [PermissionsAndroid.requestPermission, hss] at hq; exact hq
      · cases hd : env.showAlertSucceeds r
        · simp [PermissionsAndroid.requestPermission, hss, hd] at hq
        · simp [PermissionsAndroid.requestPermission, hss, hd] at hq; exact hq
  · intro a b hab
    cases hss : env.shouldShowRequestPermissionRationale p with
    | error e => simp [PermissionsAndroid.requestPermission, hss] at hab
    | ok bb =>
      cases bb
      · simp [PermissionsAndroid.requestPermission, hss] at hab
      · cases hd : env.showAlertSucceeds r
        · simp [PermissionsAndroid.requestPermission, hss, hd] at hab
          exact hab
        · simp [PermissionsAndroid.requestPermission, hss, hd] at hab
          exact hab
  · intro env2 h1 h2 h3
    simp only [PermissionsAndroid.requestPermission]
    rw [h1, h2, h3]

/-- Witness for C9 at a concrete environment, exercising the verbatim-dialog
conjunct and the determinism conjunct with every hypothesis discharged. -/
theorem requestPermission_arguments_verbatim_witness :
    ("T" = sampleRationale.title ∧ "M" = sampleRationale.message) ∧
    mkPermissionsAndroid.requestPermission envAllTrue "q" (some sampleRationale)
      = mkPermissionsAndroid.requestPermission envAllTrue "q" (some sampleRationale) :=
  ⟨(requestPermission_arguments_verbatim envAllTrue "q" sampleRationale).2.2.1
      "T" "M" (by decide),
   (requestPermission_arguments_verbatim envAllTrue "q" sampleRationale).2.2.2
      envAllTrue rfl rfl rfl⟩

/-- C10: `checkPermission p` leaves the facade object — in particular the
permission table — unchanged, and its trace is exactly the single provider
`checkPermission p` call: one provider call is issued, and neither the dialog
provider, nor the provider's `requestPermission`, nor its
`shouldShowRequestPermissionRationale` is ever invoked. -/
theorem checkPermission_frame (self : PermissionsAndroid) (env : Env)
    (p : String) :
    (self.checkPermission env p).selfAfter = self ∧
    (self.checkPermission env p).trace = [Event.checkPermissionCall p] ∧
    (self.checkPermission env p).trace.length = 1 ∧
    (∀ t m, Event.showAlertCall t m ∉ (self.checkPermission env p).trace) ∧
    (∀ q, Event.requestPermissionCall q ∉ (self.checkPermission env p).trace) ∧
    (∀ q, Event.shouldShowRationaleCall q ∉ (self.checkPermission env p).trace) := by
  simp [PermissionsAndroid.checkPermission]

/-- Witness for C3 at a concrete environment and permission. -/
theorem requestPermission_no_rationale_witness :
    (mkPermissionsAndroid.requestPermission envAllTrue "p" none).result
      = envAllTrue.requestPermission "p" :=
  (requestPermission_no_rationale envAllTrue "p").1

/-- Witness for C5 at a concrete environment and permission. -/
theorem checkPermission_forwards_witness :
    (mkPermissionsAndroid.checkPermission envAllTrue "p").result
      = envAllTrue.checkPermission "p" :=
  (checkPermission_forwards envAllTrue "p").1

/-- Witness for C6 at a concrete environment, permission and rationale. -/
theorem requestPermission_request_last_at_most_once_witness :
    (mkPermissionsAndroid.requestPermission envAllTrue "p"
        (some sampleRationale)).trace.countP (fun e => e.isRequestCall) ≤ 1 :=
  (requestPermission_request_last_at_most_once envAllTrue "p"
    (some sampleRationale)).1

/-- Witness for C10 at a concrete facade object, environment and permission. -/
theorem checkPermission_frame_witness :
    (mkPermissionsAndroid.checkPermission envAllTrue "p").selfAfter
      = mkPermissionsAndroid :=
  (checkPermission_frame mkPermissionsAndroid envAllTrue "p").1
